import Mathlib

/-!
Shallow embedding of `pkg/devicemapper/devmapper.go` (flynn vendored copy of
docker's devicemapper control-plane wrapper).

The native libdevmapper engine is an external collaborator: the Go code only
observes, for each native call, whether it returned the success code `1`
(for `DmTaskCreate`, whether the returned handle was non-nil; for `GetInfo`,
the reported `Info` record), plus the process-wide flags `dmSawBusy` /
`dmSawExist` that the log callback may set during a `Run`.  We therefore
model one execution of each exported function as a pure function of the
engine's responses, and additionally record the sequence of engine calls the
function makes (`Ev` events) so that claims about "which calls were issued"
are statable.

`SuspendDevice` / `ResumeDevice` / `GetInfo`, when invoked as helpers from
`CreateSnapDevice`, are abstracted to their overall success/failure outcome
(each is itself a task create + run; only the outcome is observed by the
caller) and recorded as single events.
-/

set_option autoImplicit false
set_option linter.unusedVariables false

namespace Devicemapper

/-- Task types, mirroring the `TaskType` constant block of the source
(`DeviceCreate` … `DeviceSetGeometry`). -/
inductive TaskType where
  | DeviceCreate
  | DeviceReload
  | DeviceRemove
  | DeviceRemoveAll
  | DeviceSuspend
  | DeviceResume
  | DeviceInfo
  | DeviceDeps
  | DeviceRename
  | DeviceVersion
  | DeviceStatus
  | DeviceTable
  | DeviceWaitevent
  | DeviceList
  | DeviceClear
  | DeviceMknodes
  | DeviceListVersions
  | DeviceTargetMsg
  | DeviceSetGeometry
  deriving DecidableEq, Repr

/-- `AddNodeType` constants (`AddNodeOnResume`, `AddNodeOnCreate`). -/
inductive AddNodeType where
  | AddNodeOnResume
  | AddNodeOnCreate
  deriving DecidableEq, Repr

/-- The source's error values (the `Err…` variable block).  Only the ones the
claims touch are listed; `fmt.Errorf`-wrapped messages are represented by the
dedicated result constructors of each modelled function. -/
inductive DmErr where
  | taskRun
  | taskSetName
  | taskSetMessage
  | taskSetAddNode
  | taskSetRo
  | taskAddTarget
  | taskSetSector
  | taskSetCookie
  | nilCookie
  | invalidAddNode
  | busy
  deriving DecidableEq, Repr

/-- `Info` struct: kernel-reported device state snapshot (`Exists`,
`Suspended`, … `TargetCount`).  Go `int`/`int32` fields become `Int`,
`uint32` fields become `Nat`. -/
structure Info where
  Exists        : Int
  Suspended     : Int
  LiveTable     : Int
  InactiveTable : Int
  OpenCount     : Int
  EventNr       : Nat
  Major         : Nat
  Minor         : Nat
  ReadOnly      : Int
  TargetCount   : Int
  deriving DecidableEq, Repr

/-- Engine-call events recorded by the model.  `dmTaskCreate` … `dmUdevWait`
are direct native calls; `getInfoDev`, `suspendDev`, `resumeDev` abstract the
helper functions `GetInfo` / `SuspendDevice` / `ResumeDevice` when called
from `CreateSnapDevice`; `resetSawExist` / `resetSawBusy` record the writes
`dmSawExist = false` / `dmSawBusy = false` to the process-wide flags. -/
inductive Ev where
  | dmTaskCreate (kind : TaskType)
  | dmSetName (name : String)
  | dmSetSector (sector : Nat)
  | dmSetMessage (message : String)
  | dmSetCookie
  | dmSetAddNode (addNode : AddNodeType)
  | dmSetRo
  | dmAddTarget (start length : Nat) (ttype params : String)
  | dmRun
  | dmTaskGetInfo
  | dmGetNextTarget
  | dmUdevWait
  | getInfoDev (name : String)
  | suspendDev (name : String)
  | resumeDev (name : String)
  | resetSawExist
  | resetSawBusy
  deriving DecidableEq, Repr

/-- Engine responses consumed by one iteration of the `CreateDevice` /
`CreateSnapDevice` retry loop.  Each `…Ok` field records whether the
corresponding native call reported success (`DmTaskCreate` returned a
non-nil handle; the setters and `DmTaskRun` returned `1`); `sawExist` is the
value of the process-wide `dmSawExist` flag right after the run (it was reset
to `false` immediately before the run, so this is exactly whether the log
callback flagged an already-exists error during that run). -/
structure IterResp where
  createOk : Bool
  nameOk   : Bool
  sectorOk : Bool
  msgOk    : Bool
  runOk    : Bool
  sawExist : Bool
  deriving DecidableEq, Repr

/-- Result of one of the target-message retry loops: `ok` is the `nil`
return; the error constructors identify which return statement produced the
non-nil error (task creation or `SetName` inside `TaskCreateNamed`,
`SetSector`, `SetMessage`, or a run failure not classified as
already-exists). -/
inductive CDResult where
  | ok
  | createTaskErr
  | setNameErr
  | setSectorErr
  | setMessageErr
  | runErr
  deriving DecidableEq, Repr

/-- Number of `dmRun` events in a trace: how many times a task was actually
executed (for a target-message task, how many messages were sent). -/
def runCount : List Ev → Nat
  | [] => 0
  | Ev.dmRun :: es => runCount es + 1
  | _ :: es => runCount es

/-- Number of occurrences of the event `e` in a trace. -/
def evCount (e : Ev) : List Ev → Nat
  | [] => 0
  | e' :: es => (if e' = e then 1 else 0) + evCount e es

theorem runCount_append (l₁ l₂ : List Ev) :
    runCount (l₁ ++ l₂) = runCount l₁ + runCount l₂ := by
  induction l₁ with
  | nil => simp [runCount]
  | cons e l ih => cases e <;> (simp [runCount, ih]; try omega)

theorem evCount_append (e : Ev) (l₁ l₂ : List Ev) :
    evCount e (l₁ ++ l₂) = evCount e l₁ + evCount e l₂ := by
  induction l₁ with
  | nil => simp [evCount]
  | cons e' l ih => simp [evCount, ih]; omega

/-- Engine calls of one loop iteration that got as far as executing the task:
create the target-message task, name it, set sector 0, set the message,
reset `dmSawExist`, run. -/
def msgIterEvs (pool : String) (msg : String) : List Ev :=
  [Ev.dmTaskCreate TaskType.DeviceTargetMsg, Ev.dmSetName pool,
   Ev.dmSetSector 0, Ev.dmSetMessage msg, Ev.resetSawExist, Ev.dmRun]

/-- Trace of `n` consecutive already-exists iterations starting at `devId`,
for the message builder `msg`. -/
def msgExistEvs (pool : String) (msg : Int → String) : Nat → Int → List Ev
  | 0, _ => []
  | n + 1, devId => msgIterEvs pool (msg devId) ++ msgExistEvs pool msg n (devId + 1)

/-- The result and engine-call trace of a loop iteration that terminates the
loop (any iteration except a run failure with `dmSawExist` set).  `rb` is the
trace of the rollback calls the loop performs before an error return: `[]`
for `CreateDevice`; a `ResumeDevice(baseName)` call for `CreateSnapDevice`
when the origin was suspended. -/
def termOut (pool : String) (msg : String) (rb : List Ev) (r : IterResp) :
    CDResult × List Ev :=
  if r.createOk then
    if r.nameOk then
      if r.sectorOk then
        if r.msgOk then
          if r.runOk then
            (CDResult.ok, msgIterEvs pool msg)
          else
            (CDResult.runErr, msgIterEvs pool msg ++ rb)
        else
          (CDResult.setMessageErr,
            [Ev.dmTaskCreate TaskType.DeviceTargetMsg, Ev.dmSetName pool,
             Ev.dmSetSector 0, Ev.dmSetMessage msg] ++ rb)
      else
        (CDResult.setSectorErr,
          [Ev.dmTaskCreate TaskType.DeviceTargetMsg, Ev.dmSetName pool,
           Ev.dmSetSector 0] ++ rb)
    else
      (CDResult.setNameErr,
        [Ev.dmTaskCreate TaskType.DeviceTargetMsg, Ev.dmSetName pool] ++ rb)
  else
    (CDResult.createTaskErr, [Ev.dmTaskCreate TaskType.DeviceTargetMsg] ++ rb)

/-- The common retry loop of `CreateDevice` (source lines 534–558) and
`CreateSnapDevice` (source lines 620–658): each iteration creates a
`DeviceTargetMsg` task named after the pool, sets sector 0, sets the message
`msg devId`, resets `dmSawExist`, and runs it.  On a failed run with
`dmSawExist` set, the caller-owned id slot is incremented and the loop
retries; every other outcome terminates the loop, performing the rollback
calls `rb` before an error return (`rb = []` for `CreateDevice`).  One list
element of engine responses is consumed per iteration; `none` means the
supplied responses ran out before the loop returned (the source loop would
keep iterating).  Returns the result, the final value of the caller-owned
`*deviceId` slot, and the trace of engine calls. -/
def msgLoop (pool : String) (msg : Int → String) (rb : List Ev) :
    List IterResp → Int → Option (CDResult × Int × List Ev)
  | [], _ => none
  | r :: rs, devId =>
    let e1 : List Ev := [Ev.dmTaskCreate TaskType.DeviceTargetMsg]
    if r.createOk then
      let e2 := e1 ++ [Ev.dmSetName pool]
      if r.nameOk then
        let e3 := e2 ++ [Ev.dmSetSector 0]
        if r.sectorOk then
          let e4 := e3 ++ [Ev.dmSetMessage (msg devId)]
          if r.msgOk then
            let e5 := e4 ++ [Ev.resetSawExist, Ev.dmRun]
            if r.runOk then
              some (CDResult.ok, devId, e5)
            else if r.sawExist then
              (msgLoop pool msg rb rs (devId + 1)).map
                (fun x => (x.1, x.2.1, e5 ++ x.2.2))
            else
              some (CDResult.runErr, devId, e5 ++ rb)
          else
            some (CDResult.setMessageErr, devId, e4 ++ rb)
        else
          some (CDResult.setSectorErr, devId, e3 ++ rb)
      else
        some (CDResult.setNameErr, devId, e2 ++ rb)
    else
      some (CDResult.createTaskErr, devId, e1 ++ rb)

/-- The message of `CreateDevice`: `create_thin <id>`. -/
def createThinMsg (devId : Int) : String := s!"create_thin {devId}"

/-- The message of `CreateSnapDevice`: `create_snap <id> <baseId>`. -/
def createSnapMsg (baseId : Int) (devId : Int) : String :=
  s!"create_snap {devId} {baseId}"

/-- `CreateDevice(poolName, deviceId)` — the exported function is the retry
loop with message `create_thin <id>` and no rollback calls (preceded only by
a debug log line). -/
def CreateDevice (pool : String) (resps : List IterResp) (devId : Int) :
    Option (CDResult × Int × List Ev) :=
  msgLoop pool createThinMsg [] resps devId

/-- An iteration whose task setup succeeded throughout. -/
def SetupOk (r : IterResp) : Prop :=
  r.createOk = true ∧ r.nameOk = true ∧ r.sectorOk = true ∧ r.msgOk = true

/-- An iteration whose run failed with the already-exists flag set. -/
def ExistFail (r : IterResp) : Prop :=
  SetupOk r ∧ r.runOk = false ∧ r.sawExist = true

/-- An iteration whose run failed without the already-exists flag. -/
def OtherFail (r : IterResp) : Prop :=
  SetupOk r ∧ r.runOk = false ∧ r.sawExist = false

/-- An iteration whose run succeeded. -/
def RunSuccess (r : IterResp) : Prop :=
  SetupOk r ∧ r.runOk = true

instance : DecidablePred SetupOk := fun r => by unfold SetupOk; infer_instance
instance : DecidablePred ExistFail := fun r => by unfold ExistFail; infer_instance
instance : DecidablePred OtherFail := fun r => by unfold OtherFail; infer_instance
instance : DecidablePred RunSuccess := fun r => by unfold RunSuccess; infer_instance

theorem msgLoop_cons (pool : String) (msg : Int → String) (rb : List Ev)
    (r : IterResp) (rs : List IterResp) (devId : Int) :
    msgLoop pool msg rb (r :: rs) devId =
      if ExistFail r then
        (msgLoop pool msg rb rs (devId + 1)).map
          (fun x => (x.1, x.2.1, msgIterEvs pool (msg devId) ++ x.2.2))
      else
        some ((termOut pool (msg devId) rb r).1, devId,
          (termOut pool (msg devId) rb r).2) := by
  rcases r with ⟨c, n, s, m, ru, se⟩
  cases c <;> cases n <;> cases s <;> cases m <;> cases ru <;> cases se <;>
    simp [msgLoop, termOut, ExistFail, SetupOk, msgIterEvs]

theorem termOut_runSuccess (pool : String) (msg : String) (rb : List Ev)
    (r : IterResp) (h : RunSuccess r) :
    termOut pool msg rb r = (CDResult.ok, msgIterEvs pool msg) := by
  obtain ⟨⟨hc, hn, hs, hm⟩, hr⟩ := h
  simp [termOut, hc, hn, hs, hm, hr]

theorem termOut_otherFail (pool : String) (msg : String) (rb : List Ev)
    (r : IterResp) (h : OtherFail r) :
    termOut pool msg rb r = (CDResult.runErr, msgIterEvs pool msg ++ rb) := by
  obtain ⟨⟨hc, hn, hs, hm⟩, hr, he⟩ := h
  simp [termOut, hc, hn, hs, hm, hr]

theorem msgLoop_existPrefix (pool : String) (msg : Int → String) (rb : List Ev)
    (pre rs : List IterResp) (devId : Int) (h : ∀ p ∈ pre, ExistFail p) :
    msgLoop pool msg rb (pre ++ rs) devId =
      (msgLoop pool msg rb rs (devId + pre.length)).map
        (fun x => (x.1, x.2.1, msgExistEvs pool msg pre.length devId ++ x.2.2)) := by
  induction pre generalizing devId with
  | nil => simp [msgExistEvs]
  | cons p pre ih =>
    have hp : ExistFail p := h p (List.mem_cons_self _ _)
    have h' : ∀ q ∈ pre, ExistFail q := fun q hq => h q (List.mem_cons_of_mem _ hq)
    simp only [List.length_cons, Nat.cast_add, Nat.cast_one, List.cons_append]
    rw [msgLoop_cons, if_pos hp, ih (devId + 1) h', Option.map_map]
    have harith : devId + 1 + (pre.length : Int) = devId + ((pre.length : Int) + 1) := by
      ring
    rw [harith]
    congr 1

/-- Any terminating execution of the retry loop decomposes as a (possibly
empty) prefix of already-exists iterations followed by one terminal
iteration: the final id is the starting id plus the number of already-exists
failures, and the result and trace are determined by the terminal
iteration's responses. -/
theorem msgLoop_eq_some (pool : String) (msg : Int → String) (rb : List Ev)
    (resps : List IterResp) :
    ∀ devId res idF tr,
      msgLoop pool msg rb resps devId = some (res, idF, tr) →
      ∃ pre r rest, resps = pre ++ r :: rest ∧ (∀ p ∈ pre, ExistFail p) ∧
        ¬ ExistFail r ∧
        idF = devId + pre.length ∧
        res = (termOut pool (msg idF) rb r).1 ∧
        tr = msgExistEvs pool msg pre.length devId ++ (termOut pool (msg idF) rb r).2 := by
  induction resps with
  | nil =>
    intro devId res idF tr h
    simp [msgLoop] at h
  | cons r rs ih =>
    intro devId res idF tr h
    rw [msgLoop_cons] at h
    by_cases hr : ExistFail r
    · rw [if_pos hr] at h
      rcases Option.map_eq_some'.mp h with ⟨⟨res', idF', tr'⟩, hLoop, hMap⟩
      simp only [Prod.mk.injEq] at hMap
      obtain ⟨hRes, hId, hTr⟩ := hMap
      subst hRes; subst hId; subst hTr
      obtain ⟨pre, r₂, rest, hEq, hPre, hTerm, hId', hRes', hTr'⟩ :=
        ih (devId + 1) res' idF' tr' hLoop
      subst hTr'
      refine ⟨r :: pre, r₂, rest, by simp [hEq], ?_, hTerm, ?_, hRes', ?_⟩
      · intro p hp
        rcases List.mem_cons.mp hp with hp | hp
        · exact hp ▸ hr
        · exact hPre p hp
      · rw [hId']
        simp only [List.length_cons, Nat.cast_add, Nat.cast_one]
        ring
      · simp only [List.length_cons, msgExistEvs, List.append_assoc]
    · rw [if_neg hr] at h
      rw [Option.some_inj, Prod.mk.injEq, Prod.mk.injEq] at h
      obtain ⟨hRes, hId, hTr⟩ := h
      replace hRes := hRes.symm
      replace hId := hId.symm
      replace hTr := hTr.symm
      refine ⟨[], r, rs, by simp, by simp, hr, by simp [hId], ?_, ?_⟩
      · subst hId; simpa [msgExistEvs] using hRes
      · subst hId; simpa [msgExistEvs] using hTr

theorem runCount_msgIterEvs (pool : String) (msg : String) :
    runCount (msgIterEvs pool msg) = 1 := by
  simp [msgIterEvs, runCount]

theorem runCount_msgExistEvs (pool : String) (msg : Int → String) (n : Nat)
    (devId : Int) :
    runCount (msgExistEvs pool msg n devId) = n := by
  induction n generalizing devId with
  | zero => simp [msgExistEvs, runCount]
  | succ n ih => simp [msgExistEvs, runCount_append, runCount_msgIterEvs, ih]; omega

/-- Concrete engine responses: a run that fails with the already-exists flag
set (the target id is taken). -/
def eResp : IterResp :=
  { createOk := true, nameOk := true, sectorOk := true, msgOk := true,
    runOk := false, sawExist := true }

/-- Concrete engine responses: a fully successful iteration. -/
def sResp : IterResp :=
  { createOk := true, nameOk := true, sectorOk := true, msgOk := true,
    runOk := true, sawExist := false }

/-- Concrete engine responses: a run that fails without the already-exists
flag (a generic run failure). -/
def oResp : IterResp :=
  { createOk := true, nameOk := true, sectorOk := true, msgOk := true,
    runOk := false, sawExist := false }

/-- **C1.**  For every pool name and starting device id, `CreateDevice` loops
issuing the target-message `create_thin <id>`: after any number of runs that
failed with the process-wide already-exists flag set (each bumping the
caller-owned id slot by one), a successful run returns success with the slot
at the final id, and a run that fails without the exists flag returns that
error with no further attempts; in both cases exactly `pre.length + 1`
messages were run. -/
theorem CreateDevice_retry_spec (pool : String) (devId : Int)
    (pre : List IterResp) (r : IterResp) (rs : List IterResp)
    (hpre : ∀ p ∈ pre, ExistFail p) :
    (RunSuccess r →
      CreateDevice pool (pre ++ r :: rs) devId
        = some (CDResult.ok, devId + pre.length,
            msgExistEvs pool createThinMsg pre.length devId
              ++ msgIterEvs pool (createThinMsg (devId + pre.length)))
      ∧ runCount (msgExistEvs pool createThinMsg pre.length devId
              ++ msgIterEvs pool (createThinMsg (devId + pre.length)))
          = pre.length + 1)
    ∧ (OtherFail r →
      CreateDevice pool (pre ++ r :: rs) devId
        = some (CDResult.runErr, devId + pre.length,
            msgExistEvs pool createThinMsg pre.length devId
              ++ msgIterEvs pool (createThinMsg (devId + pre.length)))
      ∧ runCount (msgExistEvs pool createThinMsg pre.length devId
              ++ msgIterEvs pool (createThinMsg (devId + pre.length)))
          = pre.length + 1) := by
  constructor
  · intro h
    refine ⟨?_, ?_⟩
    · rw [CreateDevice, msgLoop_existPrefix pool createThinMsg [] pre (r :: rs) devId hpre,
        msgLoop_cons, if_neg (fun hx => by
          obtain ⟨_, hr⟩ := h
          obtain ⟨_, hr', _⟩ := hx
          rw [hr] at hr'; exact Bool.noConfusion hr'),
        termOut_runSuccess pool _ [] r h]
      simp
    · simp [runCount_append, runCount_msgExistEvs, runCount_msgIterEvs]
  · intro h
    refine ⟨?_, ?_⟩
    · rw [CreateDevice, msgLoop_existPrefix pool createThinMsg [] pre (r :: rs) devId hpre,
        msgLoop_cons, if_neg (fun hx => by
          obtain ⟨_, _, he⟩ := h
          obtain ⟨_, _, he'⟩ := hx
          rw [he] at he'; exact Bool.noConfusion he'),
        termOut_otherFail pool _ [] r h]
      simp
    · simp [runCount_append, runCount_msgExistEvs, runCount_msgIterEvs]

/-- Witness for C1: with ids 5, 6, 7 taken (three exists-classified failed
runs) and id 8 succeeding, `CreateDevice` sends exactly 4 messages and
returns success with the caller's slot holding 8. -/
theorem CreateDevice_retry_spec_witness :
    CreateDevice "pool" [eResp, eResp, eResp, sResp] 5
      = some (CDResult.ok, 8,
          msgExistEvs "pool" createThinMsg 3 5 ++ msgIterEvs "pool" (createThinMsg 8))
    ∧ runCount (msgExistEvs "pool" createThinMsg 3 5
          ++ msgIterEvs "pool" (createThinMsg 8)) = 4 := by
  have h := (CreateDevice_retry_spec "pool" 5 [eResp, eResp, eResp] sResp []
    (by decide)).1 (by decide)
  simpa using h

/-- Result of `CreateSnapDevice`: `ok` is the `nil` return; `suspendErr` is
the error of a failed `SuspendDevice(baseName)`; the loop errors mirror
`CDResult`; `resumeErr` is the error of the final `ResumeDevice(baseName)`
after a successful `create_snap` message. -/
inductive CSResult where
  | ok
  | suspendErr
  | createTaskErr
  | setNameErr
  | setSectorErr
  | setMessageErr
  | runErr
  | resumeErr
  deriving DecidableEq, Repr

/-- Injection of the loop's result into `CreateSnapDevice`'s result. -/
def liftLoopRes : CDResult → CSResult
  | CDResult.ok => CSResult.ok
  | CDResult.createTaskErr => CSResult.createTaskErr
  | CDResult.setNameErr => CSResult.setNameErr
  | CDResult.setSectorErr => CSResult.setSectorErr
  | CDResult.setMessageErr => CSResult.setMessageErr
  | CDResult.runErr => CSResult.runErr

/-- `doSuspend := devinfo != nil && devinfo.Exists != 0` (source line 612):
the origin is suspended only when its info query succeeded and reported
existence. -/
def doSuspendOf : Option Info → Bool
  | none => false
  | some i => i.Exists != 0

/-- `CreateSnapDevice(poolName, deviceId, baseName, baseDeviceId)` (source
lines 610–667).  Engine behaviour supplied as: `devinfo` — the result of
`GetInfo(baseName)` (`none` when the info query returned an error, whose
value the source discards); `suspendOk` — whether `SuspendDevice(baseName)`
succeeds; `resps` — per-iteration responses for the retry loop; `resumeOk` —
whether a `ResumeDevice(baseName)` call succeeds.  The loop's rollback
(`ResumeDevice` before each error return, with its error discarded) is the
`rb` trace of `msgLoop`; the final resume after a successful message is the
only resume whose error is checked. -/
def CreateSnapDevice (pool : String) (devinfo : Option Info) (suspendOk : Bool)
    (resps : List IterResp) (resumeOk : Bool) (base : String)
    (baseId : Int) (devId : Int) : Option (CSResult × Int × List Ev) :=
  let doSuspend := doSuspendOf devinfo
  let e0 : List Ev := [Ev.getInfoDev base]
  if doSuspend then
    if suspendOk then
      (msgLoop pool (createSnapMsg baseId) [Ev.resumeDev base] resps devId).map
        (fun x =>
          match x.1 with
          | CDResult.ok =>
              ((if resumeOk then CSResult.ok else CSResult.resumeErr), x.2.1,
                e0 ++ [Ev.suspendDev base] ++ x.2.2 ++ [Ev.resumeDev base])
          | res => (liftLoopRes res, x.2.1, e0 ++ [Ev.suspendDev base] ++ x.2.2))
    else
      some (CSResult.suspendErr, devId, e0 ++ [Ev.suspendDev base])
  else
    (msgLoop pool (createSnapMsg baseId) [] resps devId).map
      (fun x => (liftLoopRes x.1, x.2.1, e0 ++ x.2.2))

theorem not_existFail_of_otherFail (r : IterResp) (h : OtherFail r) :
    ¬ ExistFail r := fun hx => by
  obtain ⟨_, _, he⟩ := h
  obtain ⟨_, _, he'⟩ := hx
  rw [he] at he'
  exact Bool.noConfusion he'

theorem not_existFail_of_runSuccess (r : IterResp) (h : RunSuccess r) :
    ¬ ExistFail r := fun hx => by
  obtain ⟨_, hr⟩ := h
  obtain ⟨_, hr', _⟩ := hx
  rw [hr] at hr'
  exact Bool.noConfusion hr'

theorem evCount_suspend_msgIterEvs (b pool m : String) :
    evCount (Ev.suspendDev b) (msgIterEvs pool m) = 0 := by
  simp [msgIterEvs, evCount]

theorem evCount_resume_msgIterEvs (b pool m : String) :
    evCount (Ev.resumeDev b) (msgIterEvs pool m) = 0 := by
  simp [msgIterEvs, evCount]

theorem evCount_suspend_msgExistEvs (b pool : String) (msg : Int → String)
    (n : Nat) (devId : Int) :
    evCount (Ev.suspendDev b) (msgExistEvs pool msg n devId) = 0 := by
  induction n generalizing devId with
  | zero => simp [msgExistEvs, evCount]
  | succ n ih =>
    simp [msgExistEvs, evCount_append, evCount_suspend_msgIterEvs, ih]

theorem evCount_resume_msgExistEvs (b pool : String) (msg : Int → String)
    (n : Nat) (devId : Int) :
    evCount (Ev.resumeDev b) (msgExistEvs pool msg n devId) = 0 := by
  induction n generalizing devId with
  | zero => simp [msgExistEvs, evCount]
  | succ n ih =>
    simp [msgExistEvs, evCount_append, evCount_resume_msgIterEvs, ih]

theorem evCount_suspend_termOut_nil (b pool m : String) (r : IterResp) :
    evCount (Ev.suspendDev b) (termOut pool m [] r).2 = 0 := by
  rcases r with ⟨c, n, s, mo, ru, se⟩
  cases c <;> cases n <;> cases s <;> cases mo <;> cases ru <;>
    simp [termOut, msgIterEvs, evCount]

theorem evCount_resume_termOut_nil (b pool m : String) (r : IterResp) :
    evCount (Ev.resumeDev b) (termOut pool m [] r).2 = 0 := by
  rcases r with ⟨c, n, s, mo, ru, se⟩
  cases c <;> cases n <;> cases s <;> cases mo <;> cases ru <;>
    simp [termOut, msgIterEvs, evCount]

/-- With no rollback calls, the retry loop's trace contains no suspend and no
resume of any device. -/
theorem msgLoop_nil_no_suspend_resume (pool : String) (msg : Int → String)
    (resps : List IterResp) (devId : Int) (res : CDResult) (idF : Int)
    (tr : List Ev) (b : String)
    (h : msgLoop pool msg [] resps devId = some (res, idF, tr)) :
    evCount (Ev.suspendDev b) tr = 0 ∧ evCount (Ev.resumeDev b) tr = 0 := by
  obtain ⟨pre, r, rest, _, _, _, _, _, hTr⟩ :=
    msgLoop_eq_some pool msg [] resps devId res idF tr h
  subst hTr
  simp [evCount_append, evCount_suspend_msgExistEvs, evCount_resume_msgExistEvs,
    evCount_suspend_termOut_nil, evCount_resume_termOut_nil]

/-- A terminal iteration whose task setup succeeded did set the message. -/
theorem dmSetMessage_mem_termOut (pool m : String) (rb : List Ev)
    (r : IterResp) (h : SetupOk r) :
    Ev.dmSetMessage m ∈ (termOut pool m rb r).2 := by
  obtain ⟨hc, hn, hs, hm⟩ := h
  cases hr : r.runOk <;> simp [termOut, hc, hn, hs, hm, hr, msgIterEvs]

/-- If the first iteration's task setup succeeded, the loop's trace contains
the message for the starting id. -/
theorem dmSetMessage_mem_msgLoop (pool : String) (msg : Int → String)
    (rb : List Ev) (r : IterResp) (rs : List IterResp) (devId : Int)
    (res : CDResult) (idF : Int) (tr : List Ev) (hSetup : SetupOk r)
    (h : msgLoop pool msg rb (r :: rs) devId = some (res, idF, tr)) :
    Ev.dmSetMessage (msg devId) ∈ tr := by
  rw [msgLoop_cons] at h
  by_cases hr : ExistFail r
  · rw [if_pos hr] at h
    rcases Option.map_eq_some'.mp h with ⟨x, _, hMap⟩
    simp only [Prod.mk.injEq] at hMap
    obtain ⟨_, _, hTr⟩ := hMap
    rw [← hTr]
    simp [msgIterEvs]
  · rw [if_neg hr, Option.some_inj, Prod.mk.injEq, Prod.mk.injEq] at h
    obtain ⟨_, _, hTr⟩ := h
    rw [← hTr]
    exact dmSetMessage_mem_termOut pool (msg devId) rb r hSetup

/-- **C2.**  When the origin existed and was suspended, a `create_snap` run
failure without the already-exists flag makes `CreateSnapDevice` call
`ResumeDevice` on the origin exactly once (it is the last call before the
error is returned), and the run error is what is returned — the origin is
not left suspended. -/
theorem CreateSnapDevice_runErr_resumes_once (pool base : String)
    (baseId devId : Int) (i : Info) (hEx : i.Exists ≠ 0) (resumeOk : Bool)
    (pre : List IterResp) (r : IterResp) (rs : List IterResp)
    (hpre : ∀ p ∈ pre, ExistFail p) (hr : OtherFail r) :
    CreateSnapDevice pool (some i) true (pre ++ r :: rs) resumeOk base baseId devId
      = some (CSResult.runErr, devId + pre.length,
          ([Ev.getInfoDev base, Ev.suspendDev base]
            ++ msgExistEvs pool (createSnapMsg baseId) pre.length devId
            ++ msgIterEvs pool (createSnapMsg baseId (devId + pre.length)))
          ++ [Ev.resumeDev base])
    ∧ evCount (Ev.resumeDev base)
        (([Ev.getInfoDev base, Ev.suspendDev base]
          ++ msgExistEvs pool (createSnapMsg baseId) pre.length devId
          ++ msgIterEvs pool (createSnapMsg baseId (devId + pre.length)))
        ++ [Ev.resumeDev base]) = 1 := by
  have hds : doSuspendOf (some i) = true := by
    simp [doSuspendOf]
    exact hEx
  constructor
  · have hloop : msgLoop pool (createSnapMsg baseId) [Ev.resumeDev base]
        (pre ++ r :: rs) devId
        = some (CDResult.runErr, devId + pre.length,
            msgExistEvs pool (createSnapMsg baseId) pre.length devId
              ++ (msgIterEvs pool (createSnapMsg baseId (devId + pre.length))
                  ++ [Ev.resumeDev base])) := by
      rw [msgLoop_existPrefix pool (createSnapMsg baseId) [Ev.resumeDev base]
          pre (r :: rs) devId hpre,
        msgLoop_cons, if_neg (not_existFail_of_otherFail r hr),
        termOut_otherFail pool _ _ r hr]
      simp
    unfold CreateSnapDevice
    rw [hds]
    simp only [if_true, hloop, Option.map_some]
    simp [liftLoopRes, List.append_assoc]
  · simp [evCount_append, evCount_resume_msgExistEvs, evCount_resume_msgIterEvs,
      evCount]

/-- The `Info` record of an existing device (only `Exists` matters to the
claims; the other fields are zero). -/
def infoE : Info :=
  { Exists := 1, Suspended := 0, LiveTable := 0, InactiveTable := 0,
    OpenCount := 0, EventNr := 0, Major := 0, Minor := 0, ReadOnly := 0,
    TargetCount := 0 }

/-- The `Info` record of a non-existing device (`Exists = 0`). -/
def infoN : Info :=
  { Exists := 0, Suspended := 0, LiveTable := 0, InactiveTable := 0,
    OpenCount := 0, EventNr := 0, Major := 0, Minor := 0, ReadOnly := 0,
    TargetCount := 0 }

/-- Witness for C2: with an existing origin, a suspended origin, and a
first-iteration generic run failure, the call returns the run error having
resumed the origin exactly once. -/
theorem CreateSnapDevice_runErr_resumes_once_witness :
    CreateSnapDevice "p" (some infoE) true [oResp] true "b" 1 2
      = some (CSResult.runErr, 2,
          ([Ev.getInfoDev "b", Ev.suspendDev "b"]
            ++ msgExistEvs "p" (createSnapMsg 1) 0 2
            ++ msgIterEvs "p" (createSnapMsg 1 2))
          ++ [Ev.resumeDev "b"])
    ∧ evCount (Ev.resumeDev "b")
        (([Ev.getInfoDev "b", Ev.suspendDev "b"]
          ++ msgExistEvs "p" (createSnapMsg 1) 0 2
          ++ msgIterEvs "p" (createSnapMsg 1 2))
        ++ [Ev.resumeDev "b"]) = 1 := by
  have h := CreateSnapDevice_runErr_resumes_once "p" "b" 1 2 infoE
    (by decide) true [] oResp [] (by decide) (by decide)
  simpa using h

/-- Shared behaviour of `CreateSnapDevice` whenever `doSuspend` is `false`
(info query failed, or it reported a non-existing origin): no suspend, no
resume, and the `create_snap` message is still issued whenever the first
iteration's task setup succeeds. -/
theorem csd_noSuspend_aux (pool base : String) (baseId devId : Int)
    (devinfo : Option Info) (hds : doSuspendOf devinfo = false)
    (suspendOk resumeOk : Bool) (resps : List IterResp) :
    (∀ res idF tr,
      CreateSnapDevice pool devinfo suspendOk resps resumeOk base baseId devId
        = some (res, idF, tr) →
      evCount (Ev.suspendDev base) tr = 0 ∧ evCount (Ev.resumeDev base) tr = 0)
    ∧ (∀ r rs, resps = r :: rs → SetupOk r →
      ∀ res idF tr,
        CreateSnapDevice pool devinfo suspendOk resps resumeOk base baseId devId
          = some (res, idF, tr) →
        Ev.dmSetMessage (createSnapMsg baseId devId) ∈ tr) := by
  constructor
  · intro res idF tr h
    unfold CreateSnapDevice at h
    rw [hds] at h
    simp only [Bool.false_eq_true, if_false] at h
    rcases Option.map_eq_some'.mp h with ⟨⟨res', idF', tr'⟩, hLoop, hMap⟩
    simp only [Prod.mk.injEq] at hMap
    obtain ⟨_, _, hTr⟩ := hMap
    rw [← hTr]
    have h0 := msgLoop_nil_no_suspend_resume pool (createSnapMsg baseId)
      resps devId res' idF' tr' base hLoop
    simp [evCount_append, evCount, h0.1, h0.2]
  · intro r rs hEq hSetup res idF tr h
    unfold CreateSnapDevice at h
    rw [hds] at h
    simp only [Bool.false_eq_true, if_false] at h
    rcases Option.map_eq_some'.mp h with ⟨⟨res', idF', tr'⟩, hLoop, hMap⟩
    simp only [Prod.mk.injEq] at hMap
    obtain ⟨_, _, hTr⟩ := hMap
    rw [← hTr]
    subst hEq
    have := dmSetMessage_mem_msgLoop pool (createSnapMsg baseId) [] r rs devId
      res' idF' tr' hSetup hLoop
    simp [this]

/-- **C6.**  When the origin's info query reports that the origin does not
exist, `CreateSnapDevice` performs no suspend and no resume of the origin,
and (whenever the first iteration's task setup succeeds) still issues the
`create_snap` target-message against the pool. -/
theorem CreateSnapDevice_nonexistent_origin (pool base : String)
    (baseId devId : Int) (i : Info) (hEx : i.Exists = 0)
    (suspendOk resumeOk : Bool) (resps : List IterResp) :
    (∀ res idF tr,
      CreateSnapDevice pool (some i) suspendOk resps resumeOk base baseId devId
        = some (res, idF, tr) →
      evCount (Ev.suspendDev base) tr = 0 ∧ evCount (Ev.resumeDev base) tr = 0)
    ∧ (∀ r rs, resps = r :: rs → SetupOk r →
      ∀ res idF tr,
        CreateSnapDevice pool (some i) suspendOk resps resumeOk base baseId devId
          = some (res, idF, tr) →
        Ev.dmSetMessage (createSnapMsg baseId devId) ∈ tr) :=
  csd_noSuspend_aux pool base baseId devId (some i)
    (by simp [doSuspendOf, hEx]) suspendOk resumeOk resps

/-- Witness for C6: non-existing origin, one successful iteration — the
trace has no suspend/resume and contains the `create_snap` message. -/
theorem CreateSnapDevice_nonexistent_origin_witness :
    (∀ res idF tr,
      CreateSnapDevice "p" (some infoN) true [sResp] true "b" 1 2
        = some (res, idF, tr) →
      evCount (Ev.suspendDev "b") tr = 0 ∧ evCount (Ev.resumeDev "b") tr = 0)
    ∧ (∀ res idF tr,
      CreateSnapDevice "p" (some infoN) true [sResp] true "b" 1 2
        = some (res, idF, tr) →
      Ev.dmSetMessage (createSnapMsg 1 2) ∈ tr) := by
  have h := CreateSnapDevice_nonexistent_origin "p" "b" 1 2 infoN (by decide)
    true true [sResp]
  exact ⟨h.1, fun res idF tr hh => h.2 sResp [] rfl (by decide) res idF tr hh⟩

/-- **C9.**  When the info query on the origin itself fails, `CreateSnapDevice`
treats the origin exactly as non-existent: its behaviour (result, final id,
trace) is identical to a query reporting `Exists = 0` — so no suspend, no
resume, the `create_snap` message is still attempted, and the info-query
failure is never surfaced. -/
theorem CreateSnapDevice_infoErr_as_nonexistent (pool base : String)
    (baseId devId : Int) (suspendOk resumeOk : Bool) (resps : List IterResp)
    (i : Info) (hEx : i.Exists = 0) :
    (CreateSnapDevice pool none suspendOk resps resumeOk base baseId devId
      = CreateSnapDevice pool (some i) suspendOk resps resumeOk base baseId devId)
    ∧ (∀ res idF tr,
      CreateSnapDevice pool none suspendOk resps resumeOk base baseId devId
        = some (res, idF, tr) →
      evCount (Ev.suspendDev base) tr = 0 ∧ evCount (Ev.resumeDev base) tr = 0)
    ∧ (∀ r rs, resps = r :: rs → SetupOk r →
      ∀ res idF tr,
        CreateSnapDevice pool none suspendOk resps resumeOk base baseId devId
          = some (res, idF, tr) →
        Ev.dmSetMessage (createSnapMsg baseId devId) ∈ tr) := by
  have hds : doSuspendOf (some i) = false := by
    simp [doSuspendOf, hEx]
  have hds0 : doSuspendOf (none : Option Info) = false := by
    simp [doSuspendOf]
  have hEqCall :
      CreateSnapDevice pool none suspendOk resps resumeOk base baseId devId
        = CreateSnapDevice pool (some i) suspendOk resps resumeOk base baseId devId := by
    unfold CreateSnapDevice
    rw [hds, hds0]
  have haux := csd_noSuspend_aux pool base baseId devId none hds0
    suspendOk resumeOk resps
  exact ⟨hEqCall, haux.1, haux.2⟩

/-- Witness for C9: info query fails, one successful iteration — behaviour
coincides with the non-existent-origin behaviour. -/
theorem CreateSnapDevice_infoErr_as_nonexistent_witness :
    CreateSnapDevice "p" none true [sResp] true "b" 1 2
      = CreateSnapDevice "p" (some infoN) true [sResp] true "b" 1 2 := by
  exact (CreateSnapDevice_infoErr_as_nonexistent "p" "b" 1 2 true true [sResp]
    infoN (by decide)).1

theorem liftLoopRes_ne_ok (cd : CDResult) (h : cd ≠ CDResult.ok) :
    liftLoopRes cd ≠ CSResult.ok := by
  cases cd <;> simp [liftLoopRes] at h ⊢

theorem liftLoopRes_ne_resumeErr (cd : CDResult) :
    liftLoopRes cd ≠ CSResult.resumeErr := by
  cases cd <;> simp [liftLoopRes]

theorem evCount_resume_termOut_rb (b pool m : String) (r : IterResp) :
    evCount (Ev.resumeDev b) (termOut pool m [Ev.resumeDev b] r).2
      = if (termOut pool m [Ev.resumeDev b] r).1 = CDResult.ok then 0 else 1 := by
  rcases r with ⟨c, n, s, mo, ru, se⟩
  cases c <;> cases n <;> cases s <;> cases mo <;> cases ru <;>
    simp [termOut, msgIterEvs, evCount, evCount_append]

/-- `CreateSnapDevice` on an existing origin with a successful suspend, as a
map over the retry loop. -/
theorem CreateSnapDevice_suspended_eq (pool base : String) (baseId devId : Int)
    (i : Info) (hEx : i.Exists ≠ 0) (resps : List IterResp) (resumeOk : Bool) :
    CreateSnapDevice pool (some i) true resps resumeOk base baseId devId
      = (msgLoop pool (createSnapMsg baseId) [Ev.resumeDev base] resps devId).map
        (fun x =>
          match x.1 with
          | CDResult.ok =>
              ((if resumeOk then CSResult.ok else CSResult.resumeErr), x.2.1,
                [Ev.getInfoDev base] ++ [Ev.suspendDev base] ++ x.2.2
                  ++ [Ev.resumeDev base])
          | res => (liftLoopRes res, x.2.1,
                [Ev.getInfoDev base] ++ [Ev.suspendDev base] ++ x.2.2)) := by
  have hds : doSuspendOf (some i) = true := by
    simp [doSuspendOf]
    exact hEx
  unfold CreateSnapDevice
  rw [hds]
  simp

/-- Counterexample to C4 as stated: with an existing, suspended origin, a
first-run generic failure, and a failing `ResumeDevice`, the call returns
the run error (`runErr`), not the resume error — the rollback resume was
attempted (one `resumeDev` call is in the trace) but its own failure is
discarded. -/
theorem CreateSnapDevice_resume_error_discarded_cex :
    CreateSnapDevice "p" (some infoE) true [oResp] false "b" 1 2
      = some (CSResult.runErr, 2,
          [Ev.getInfoDev "b", Ev.suspendDev "b"]
            ++ (msgIterEvs "p" (createSnapMsg 1 2) ++ [Ev.resumeDev "b"]))
    ∧ CSResult.runErr ≠ CSResult.resumeErr
    ∧ evCount (Ev.resumeDev "b")
        ([Ev.getInfoDev "b", Ev.suspendDev "b"]
          ++ (msgIterEvs "p" (createSnapMsg 1 2) ++ [Ev.resumeDev "b"])) = 1 := by
  refine ⟨by rfl, by decide, by decide⟩

/-- **C4 (amended).**  With the origin existing and suspended: every
non-success return attempts the resume exactly once, but on rollback paths
(task-setup failure or a non-exists run failure) the resume call's own
failure is discarded and the original error is returned; the resume error is
surfaced (as `resumeErr`) exactly when the `create_snap` message itself
succeeded and the final resume failed. -/
theorem CreateSnapDevice_rollback_resume_best_effort (pool base : String)
    (baseId devId : Int) (i : Info) (hEx : i.Exists ≠ 0)
    (resps : List IterResp) :
    (∀ resumeOk res idF tr,
      CreateSnapDevice pool (some i) true resps resumeOk base baseId devId
        = some (res, idF, tr) →
      res ≠ CSResult.ok →
      evCount (Ev.resumeDev base) tr = 1)
    ∧ (∀ res idF tr,
      CreateSnapDevice pool (some i) true resps false base baseId devId
        = some (res, idF, tr) →
      res ≠ CSResult.resumeErr →
      CreateSnapDevice pool (some i) true resps true base baseId devId
        = some (res, idF, tr))
    ∧ (∀ idF tr,
      CreateSnapDevice pool (some i) true resps false base baseId devId
        = some (CSResult.resumeErr, idF, tr)
      ↔ CreateSnapDevice pool (some i) true resps true base baseId devId
        = some (CSResult.ok, idF, tr)) := by
  refine ⟨?_, ?_, ?_⟩
  · intro resumeOk res idF tr h hok
    rw [CreateSnapDevice_suspended_eq pool base baseId devId i hEx resps resumeOk] at h
    rcases Option.map_eq_some'.mp h with ⟨⟨res', idF', tr'⟩, hLoop, hMap⟩
    obtain ⟨pre, r, rest, _, _, _, _, hRes', hTr'⟩ :=
      msgLoop_eq_some pool (createSnapMsg baseId) [Ev.resumeDev base]
        resps devId res' idF' tr' hLoop
    have hcnt := evCount_resume_termOut_rb base pool (createSnapMsg baseId idF')
      r
    cases res' with
    | ok =>
      simp only [Prod.mk.injEq] at hMap
      obtain ⟨_, _, hTr⟩ := hMap
      rw [← hTr]
      rw [if_pos (hRes'.symm)] at hcnt
      subst hTr'
      simp [evCount_append, evCount, evCount_resume_msgExistEvs, hcnt]
    | createTaskErr =>
      simp only [Prod.mk.injEq, liftLoopRes] at hMap
      obtain ⟨_, _, hTr⟩ := hMap
      rw [← hTr]
      rw [if_neg (fun hx => CDResult.noConfusion (hRes' ▸ hx))] at hcnt
      subst hTr'
      simp [evCount_append, evCount, evCount_resume_msgExistEvs, hcnt]
    | setNameErr =>
      simp only [Prod.mk.injEq, liftLoopRes] at hMap
      obtain ⟨_, _, hTr⟩ := hMap
      rw [← hTr]
      rw [if_neg (fun hx => CDResult.noConfusion (hRes' ▸ hx))] at hcnt
      subst hTr'
      simp [evCount_append, evCount, evCount_resume_msgExistEvs, hcnt]
    | setSectorErr =>
      simp only [Prod.mk.injEq, liftLoopRes] at hMap
      obtain ⟨_, _, hTr⟩ := hMap
      rw [← hTr]
      rw [if_neg (fun hx => CDResult.noConfusion (hRes' ▸ hx))] at hcnt
      subst hTr'
      simp [evCount_append, evCount, evCount_resume_msgExistEvs, hcnt]
    | setMessageErr =>
      simp only [Prod.mk.injEq, liftLoopRes] at hMap
      obtain ⟨_, _, hTr⟩ := hMap
      rw [← hTr]
      rw [if_neg (fun hx => CDResult.noConfusion (hRes' ▸ hx))] at hcnt
      subst hTr'
      simp [evCount_append, evCount, evCount_resume_msgExistEvs, hcnt]
    | runErr =>
      simp only [Prod.mk.injEq, liftLoopRes] at hMap
      obtain ⟨_, _, hTr⟩ := hMap
      rw [← hTr]
      rw [if_neg (fun hx => CDResult.noConfusion (hRes' ▸ hx))] at hcnt
      subst hTr'
      simp [evCount_append, evCount, evCount_resume_msgExistEvs, hcnt]
  · intro res idF tr h hres
    rw [CreateSnapDevice_suspended_eq pool base baseId devId i hEx resps false] at h
    rw [CreateSnapDevice_suspended_eq pool base baseId devId i hEx resps true]
    rcases Option.map_eq_some'.mp h with ⟨⟨res', idF', tr'⟩, hLoop, hMap⟩
    cases res' with
    | ok =>
      simp only [Prod.mk.injEq, if_neg] at hMap
      obtain ⟨hR, _, _⟩ := hMap
      exact absurd hR.symm hres
    | createTaskErr => rw [hLoop]; simpa using hMap
    | setNameErr => rw [hLoop]; simpa using hMap
    | setSectorErr => rw [hLoop]; simpa using hMap
    | setMessageErr => rw [hLoop]; simpa using hMap
    | runErr => rw [hLoop]; simpa using hMap
  · intro idF tr
    rw [CreateSnapDevice_suspended_eq pool base baseId devId i hEx resps false,
      CreateSnapDevice_suspended_eq pool base baseId devId i hEx resps true]
    constructor
    · intro h
      rcases Option.map_eq_some'.mp h with ⟨⟨res', idF', tr'⟩, hLoop, hMap⟩
      cases res' with
      | ok => rw [hLoop]; simpa using hMap
      | createTaskErr =>
        simp only [Prod.mk.injEq, liftLoopRes] at hMap
        exact absurd hMap.1 (by decide)
      | setNameErr =>
        simp only [Prod.mk.injEq, liftLoopRes] at hMap
        exact absurd hMap.1 (by decide)
      | setSectorErr =>
        simp only [Prod.mk.injEq, liftLoopRes] at hMap
        exact absurd hMap.1 (by decide)
      | setMessageErr =>
        simp only [Prod.mk.injEq, liftLoopRes] at hMap
        exact absurd hMap.1 (by decide)
      | runErr =>
        simp only [Prod.mk.injEq, liftLoopRes] at hMap
        exact absurd hMap.1 (by decide)
    · intro h
      rcases Option.map_eq_some'.mp h with ⟨⟨res', idF', tr'⟩, hLoop, hMap⟩
      cases res' with
      | ok => rw [hLoop]; simpa using hMap
      | createTaskErr =>
        simp only [Prod.mk.injEq, liftLoopRes] at hMap
        exact absurd hMap.1 (by decide)
      | setNameErr =>
        simp only [Prod.mk.injEq, liftLoopRes] at hMap
        exact absurd hMap.1 (by decide)
      | setSectorErr =>
        simp only [Prod.mk.injEq, liftLoopRes] at hMap
        exact absurd hMap.1 (by decide)
      | setMessageErr =>
        simp only [Prod.mk.injEq, liftLoopRes] at hMap
        exact absurd hMap.1 (by decide)
      | runErr =>
        simp only [Prod.mk.injEq, liftLoopRes] at hMap
        exact absurd hMap.1 (by decide)

/-- Witness for the amended C4: concrete rollback run — the resume happens
once, and the outcome with a failing resume equals the outcome with a
successful one. -/
theorem CreateSnapDevice_rollback_resume_best_effort_witness :
    evCount (Ev.resumeDev "b")
        ([Ev.getInfoDev "b", Ev.suspendDev "b"]
          ++ (msgIterEvs "p" (createSnapMsg 1 2) ++ [Ev.resumeDev "b"])) = 1
    ∧ CreateSnapDevice "p" (some infoE) true [oResp] true "b" 1 2
      = some (CSResult.runErr, 2,
          [Ev.getInfoDev "b", Ev.suspendDev "b"]
            ++ (msgIterEvs "p" (createSnapMsg 1 2) ++ [Ev.resumeDev "b"])) := by
  have h := CreateSnapDevice_rollback_resume_best_effort "p" "b" 1 2 infoE
    (by decide) [oResp]
  refine ⟨?_, ?_⟩
  · exact h.1 false CSResult.runErr 2
      ([Ev.getInfoDev "b", Ev.suspendDev "b"]
        ++ (msgIterEvs "p" (createSnapMsg 1 2) ++ [Ev.resumeDev "b"]))
      (by rfl) (by decide)
  · exact h.2.1 CSResult.runErr 2
      ([Ev.getInfoDev "b", Ev.suspendDev "b"]
        ++ (msgIterEvs "p" (createSnapMsg 1 2) ++ [Ev.resumeDev "b"]))
      (by rfl) (by decide)

theorem runCount_termOut (pool m : String) (rb : List Ev) (r : IterResp)
    (hrb : runCount rb = 0) :
    runCount (termOut pool m rb r).2
      = if (termOut pool m rb r).1 = CDResult.ok
          ∨ (termOut pool m rb r).1 = CDResult.runErr then 1 else 0 := by
  rcases r with ⟨c, n, s, mo, ru, se⟩
  cases c <;> cases n <;> cases s <;> cases mo <;> cases ru <;>
    simp [termOut, msgIterEvs, runCount, runCount_append, hrb]

theorem setupOk_of_termOut_run (pool m : String) (rb : List Ev) (r : IterResp)
    (h : (termOut pool m rb r).1 = CDResult.ok
      ∨ (termOut pool m rb r).1 = CDResult.runErr) :
    SetupOk r := by
  rcases r with ⟨c, n, s, mo, ru, se⟩
  cases c <;> cases n <;> cases s <;> cases mo <;> cases ru <;>
    simp [termOut, SetupOk] at h ⊢

/-- Slot arithmetic of the retry loop: the caller-owned id slot never
decreases; it ends at the starting id plus the number of already-exists
failures — one less than the number of runs when the terminal iteration ran
(success or generic run failure, in which case the last message carries the
final id), and equal to the number of runs when the terminal iteration
failed during task setup. -/
theorem msgLoop_slot_arithmetic (pool : String) (msg : Int → String)
    (rb : List Ev) (hrb : runCount rb = 0) (resps : List IterResp)
    (devId : Int) (res : CDResult) (idF : Int) (tr : List Ev)
    (h : msgLoop pool msg rb resps devId = some (res, idF, tr)) :
    devId ≤ idF
    ∧ ((res = CDResult.ok ∨ res = CDResult.runErr) →
       idF + 1 = devId + runCount tr ∧ Ev.dmSetMessage (msg idF) ∈ tr)
    ∧ (¬(res = CDResult.ok ∨ res = CDResult.runErr) →
       idF = devId + runCount tr) := by
  obtain ⟨pre, r, rest, hEq, hPre, hTerm, hId, hRes, hTr⟩ :=
    msgLoop_eq_some pool msg rb resps devId res idF tr h
  subst hRes
  subst hTr
  refine ⟨?_, ?_, ?_⟩
  · rw [hId]
    omega
  · intro hres
    constructor
    · rw [runCount_append, runCount_msgExistEvs,
        runCount_termOut pool (msg idF) rb r hrb, if_pos hres]
      omega
    · exact List.mem_append_right _
        (dmSetMessage_mem_termOut pool (msg idF) rb r
          (setupOk_of_termOut_run pool (msg idF) rb r hres))
  · intro hres
    rw [runCount_append, runCount_msgExistEvs,
      runCount_termOut pool (msg idF) rb r hrb, if_neg hres]
    omega

/-- Concrete engine responses: `TaskCreateNamed` fails (nil task). -/
def cResp : IterResp :=
  { createOk := false, nameOk := true, sectorOk := true, msgOk := true,
    runOk := true, sawExist := false }

/-- Counterexample to C10 as stated: starting at id 5, one already-exists
run failure (slot moves to 6) followed by a task-creation failure returns
with the slot at 6, but the last attempted message was `create_thin 5` — on
this task-setup-failure return the slot does not hold the id of the last
attempted message. -/
theorem CreateDevice_setupErr_slot_cex :
    CreateDevice "p" [eResp, cResp] 5
      = some (CDResult.createTaskErr, 6,
          msgIterEvs "p" (createThinMsg 5)
            ++ [Ev.dmTaskCreate TaskType.DeviceTargetMsg])
    ∧ evCount (Ev.dmSetMessage (createThinMsg 5))
        (msgIterEvs "p" (createThinMsg 5)
          ++ [Ev.dmTaskCreate TaskType.DeviceTargetMsg]) = 1
    ∧ evCount (Ev.dmSetMessage (createThinMsg 6))
        (msgIterEvs "p" (createThinMsg 5)
          ++ [Ev.dmTaskCreate TaskType.DeviceTargetMsg]) = 0
    ∧ (6 : Int) ≠ 5 := by
  refine ⟨by rfl, by decide, by decide, by decide⟩

theorem liftLoopRes_run_case (cd : CDResult) :
    (liftLoopRes cd = CSResult.ok ∨ liftLoopRes cd = CSResult.resumeErr
      ∨ liftLoopRes cd = CSResult.runErr)
    ↔ (cd = CDResult.ok ∨ cd = CDResult.runErr) := by
  cases cd <;> simp [liftLoopRes]

/-- **C10 (amended).**  In both `CreateDevice` and `CreateSnapDevice` the
caller-owned id slot is monotonically non-decreasing and is incremented
exactly once per already-exists run failure and never otherwise: on every
return the slot equals the starting id plus the number of exists-classified
run failures.  Concretely, whenever the terminal iteration ran the task
(success, or a run failure not classified already-exists, or a post-success
resume failure) the slot is one less than `starting id + number of runs` and
the last message carries the slot's id; whenever the return was caused by a
task-setup failure (or, for `CreateSnapDevice`, a suspend failure) the slot
equals `starting id + number of runs` — the id the failed iteration was
preparing, one past the last attempted message when a collision preceded. -/
theorem createLoops_slot_arithmetic (pool base : String) (baseId devId : Int)
    (resps : List IterResp) (devinfo : Option Info)
    (suspendOk resumeOk : Bool) :
    (∀ res idF tr, CreateDevice pool resps devId = some (res, idF, tr) →
      devId ≤ idF
      ∧ ((res = CDResult.ok ∨ res = CDResult.runErr) →
         idF + 1 = devId + runCount tr
           ∧ Ev.dmSetMessage (createThinMsg idF) ∈ tr)
      ∧ (¬(res = CDResult.ok ∨ res = CDResult.runErr) →
         idF = devId + runCount tr))
    ∧ (∀ res idF tr,
      CreateSnapDevice pool devinfo suspendOk resps resumeOk base baseId devId
        = some (res, idF, tr) →
      devId ≤ idF
      ∧ ((res = CSResult.ok ∨ res = CSResult.resumeErr ∨ res = CSResult.runErr) →
         idF + 1 = devId + runCount tr
           ∧ Ev.dmSetMessage (createSnapMsg baseId idF) ∈ tr)
      ∧ (¬(res = CSResult.ok ∨ res = CSResult.resumeErr ∨ res = CSResult.runErr) →
         idF = devId + runCount tr)) := by
  constructor
  · intro res idF tr h
    exact msgLoop_slot_arithmetic pool createThinMsg [] rfl resps devId
      res idF tr h
  · intro res idF tr h
    simp only [CreateSnapDevice] at h
    cases hds : doSuspendOf devinfo with
    | false =>
      rw [hds] at h
      simp only [Bool.false_eq_true, if_false] at h
      rcases Option.map_eq_some'.mp h with ⟨⟨res', idF', tr'⟩, hLoop, hMap⟩
      have hArith := msgLoop_slot_arithmetic pool (createSnapMsg baseId) []
        rfl resps devId res' idF' tr' hLoop
      simp only [Prod.mk.injEq] at hMap
      obtain ⟨hR, hI, hT⟩ := hMap
      subst hR; subst hI; subst hT
      refine ⟨hArith.1, ?_, ?_⟩
      · intro hres
        have hres' : res' = CDResult.ok ∨ res' = CDResult.runErr :=
          (liftLoopRes_run_case res').mp hres
        obtain ⟨hEq, hMem⟩ := hArith.2.1 hres'
        constructor
        · simpa [runCount_append, runCount] using hEq
        · simp [hMem]
      · intro hres
        have hres' : ¬(res' = CDResult.ok ∨ res' = CDResult.runErr) :=
          fun hc => hres ((liftLoopRes_run_case res').mpr hc)
        have := hArith.2.2 hres'
        simpa [runCount_append, runCount] using this
    | true =>
      rw [hds] at h
      simp only [if_true] at h
      cases suspendOk with
      | false =>
        simp only [Bool.false_eq_true, if_false, Option.some_inj,
          Prod.mk.injEq] at h
        obtain ⟨hR, hI, hT⟩ := h
        subst hI
        rw [← hR, ← hT]
        refine ⟨le_refl devId, ?_, ?_⟩
        · intro hres
          simp at hres
        · intro hres
          simp [runCount]
      | true =>
        simp only [if_true] at h
        rcases Option.map_eq_some'.mp h with ⟨⟨res', idF', tr'⟩, hLoop, hMap⟩
        have hArith := msgLoop_slot_arithmetic pool (createSnapMsg baseId)
          [Ev.resumeDev base] (by simp [runCount]) resps devId
          res' idF' tr' hLoop
        cases res'
        case ok =>
          simp only [Prod.mk.injEq] at hMap
          obtain ⟨hR, hI, hT⟩ := hMap
          subst hI; subst hT
          obtain ⟨hEq, hMem⟩ := hArith.2.1 (Or.inl rfl)
          refine ⟨hArith.1, ?_, ?_⟩
          · intro _
            constructor
            · simpa [runCount_append, runCount] using hEq
            · simp [hMem]
          · intro hres
            exfalso
            apply hres
            cases resumeOk with
            | false => rw [← hR]; simp
            | true => rw [← hR]; simp
        case runErr =>
          simp only [Prod.mk.injEq, liftLoopRes] at hMap
          obtain ⟨hR, hI, hT⟩ := hMap
          subst hR; subst hI; subst hT
          obtain ⟨hEq, hMem⟩ := hArith.2.1 (Or.inr rfl)
          refine ⟨hArith.1, ?_, ?_⟩
          · intro _
            constructor
            · simpa [runCount_append, runCount] using hEq
            · simp [hMem]
          · intro hres
            simp at hres
        all_goals (
          simp only [Prod.mk.injEq, liftLoopRes] at hMap;
          obtain ⟨hR, hI, hT⟩ := hMap;
          subst hR; subst hI; subst hT;
          refine ⟨hArith.1, ?_, ?_⟩;
          · intro hres
            simp at hres
          · intro hres
            have := hArith.2.2 (by simp)
            simpa [runCount_append, runCount] using this)

/-- Witness for the amended C10: the counterexample's own run — one
collision then a task-creation failure — satisfies the amended arithmetic:
the slot 6 equals starting id 5 plus the single run. -/
theorem createLoops_slot_arithmetic_witness :
    (5 : Int) ≤ 6
    ∧ (6 : Int) = 5 + runCount (msgIterEvs "p" (createThinMsg 5)
        ++ [Ev.dmTaskCreate TaskType.DeviceTargetMsg]) := by
  have h := ((createLoops_slot_arithmetic "p" "b" 1 5 [eResp, cResp] none
    true true).1 CDResult.createTaskErr 6
    (msgIterEvs "p" (createThinMsg 5)
      ++ [Ev.dmTaskCreate TaskType.DeviceTargetMsg]) (by rfl))
  exact ⟨h.1, h.2.2 (by decide)⟩

/-- Engine responses consumed by one `RemoveDevice` call: whether
`DmTaskCreate` returned a handle, whether `DmTaskSetName`, `DmTaskSetCookie`
and `DmTaskRun` returned 1, and whether the log callback set `dmSawBusy`
during the run. -/
structure RemoveResp where
  createOk : Bool
  nameOk   : Bool
  cookieOk : Bool
  runOk    : Bool
  sawBusy  : Bool
  deriving DecidableEq, Repr

/-- Result of `RemoveDevice`: `ok` is the `nil` return; `busy` is `ErrBusy`;
`runErr` is the generic "Error running RemoveDevice" error. -/
inductive RmResult where
  | ok
  | createTaskErr
  | setNameErr
  | setCookieErr
  | busy
  | runErr
  deriving DecidableEq, Repr

/-- `RemoveDevice(name)` (source lines 312–335): create a `DeviceRemove`
task named `name`, set a (non-nil, so never `ErrNilCookie`) cookie, register
`defer UdevWait(cookie)` — so the wait runs on every exit path reached after
a successful `SetCookie` — reset `dmSawBusy` to `false` immediately before
the run, run, and classify a failed run as `ErrBusy` iff `dmSawBusy` was set
during it.  `initBusy` is the ambient value of the process-wide `dmSawBusy`
flag at entry; the reset (`busy1`) discards it before the run. -/
def RemoveDevice (name : String) (r : RemoveResp) (initBusy : Bool) :
    RmResult × List Ev :=
  if r.createOk then
    if r.nameOk then
      if r.cookieOk then
        let busy0 := initBusy
        let busy1 := false
        let busy2 := busy1 || r.sawBusy
        let e : List Ev := [Ev.dmTaskCreate TaskType.DeviceRemove,
          Ev.dmSetName name, Ev.dmSetCookie, Ev.resetSawBusy, Ev.dmRun]
        if r.runOk then
          (RmResult.ok, e ++ [Ev.dmUdevWait])
        else if busy2 then
          (RmResult.busy, e ++ [Ev.dmUdevWait])
        else
          (RmResult.runErr, e ++ [Ev.dmUdevWait])
      else
        (RmResult.setCookieErr,
          [Ev.dmTaskCreate TaskType.DeviceRemove, Ev.dmSetName name,
           Ev.dmSetCookie])
    else
      (RmResult.setNameErr,
        [Ev.dmTaskCreate TaskType.DeviceRemove, Ev.dmSetName name])
  else
    (RmResult.createTaskErr, [Ev.dmTaskCreate TaskType.DeviceRemove])

/-- **C3.**  `RemoveDevice` is independent of the ambient busy flag (it is
reset, the `resetSawBusy` write sitting immediately before `dmRun` in the
trace); once the cookie is set the trace ends with the udev wait on every
run outcome; and a failed run is classified `busy` exactly when the flag was
set during the run, generic `runErr` exactly otherwise — never a generic
error for a busy-reported run. -/
theorem RemoveDevice_spec (name : String) (r : RemoveResp) (b1 b2 : Bool) :
    (RemoveDevice name r b1 = RemoveDevice name r b2)
    ∧ (r.createOk = true → r.nameOk = true → r.cookieOk = true →
        (RemoveDevice name r b1).2
          = [Ev.dmTaskCreate TaskType.DeviceRemove, Ev.dmSetName name,
             Ev.dmSetCookie, Ev.resetSawBusy, Ev.dmRun, Ev.dmUdevWait])
    ∧ (r.createOk = true → r.nameOk = true → r.cookieOk = true →
       r.runOk = false →
        ((RemoveDevice name r b1).1 = RmResult.busy ↔ r.sawBusy = true)
        ∧ ((RemoveDevice name r b1).1 = RmResult.runErr ↔ r.sawBusy = false)) := by
  rcases r with ⟨c, n, k, ru, sb⟩
  cases c <;> cases n <;> cases k <;> cases ru <;> cases sb <;>
    simp [RemoveDevice]

/-- Concrete engine responses for `RemoveDevice`: everything up to the run
succeeds, the run fails, and the log callback reported busy. -/
def rmBusyResp : RemoveResp :=
  { createOk := true, nameOk := true, cookieOk := true, runOk := false,
    sawBusy := true }

/-- Witness for C3: a busy-failing run returns `busy` (not the generic
error), with the full trace ending in the udev wait, independently of the
ambient flag. -/
theorem RemoveDevice_spec_witness :
    (RemoveDevice "dev" rmBusyResp true = RemoveDevice "dev" rmBusyResp false)
    ∧ (RemoveDevice "dev" rmBusyResp true).2
        = [Ev.dmTaskCreate TaskType.DeviceRemove, Ev.dmSetName "dev",
           Ev.dmSetCookie, Ev.resetSawBusy, Ev.dmRun, Ev.dmUdevWait]
    ∧ (RemoveDevice "dev" rmBusyResp true).1 = RmResult.busy := by
  have h := RemoveDevice_spec "dev" rmBusyResp true false
  exact ⟨h.1, h.2.1 rfl rfl rfl, (h.2.2 rfl rfl rfl rfl).1.mpr rfl⟩

/-- `Task.SetCookie(cookie, flags)` (source lines 159–167): a nil cookie
pointer is rejected with `ErrNilCookie` before any native call; otherwise
`DmTaskSetCookie` is invoked, a non-1 result becoming `ErrTaskSetCookie`.
`cookie = none` models the nil pointer; `engineOk` whether the native call
returned 1; the trace holds the native calls made. -/
def SetCookie (cookie : Option Nat) (flags : Nat) (engineOk : Bool) :
    Except DmErr Unit × List Ev :=
  match cookie with
  | none => (Except.error DmErr.nilCookie, [])
  | some _ =>
      if engineOk then
        (Except.ok (), [Ev.dmSetCookie])
      else
        (Except.error DmErr.taskSetCookie, [Ev.dmSetCookie])

/-- **C8.**  For every flags value and every engine behaviour, `SetCookie`
with a nil cookie pointer returns `ErrNilCookie` and performs no native
call (empty trace — no native state is touched). -/
theorem SetCookie_nil_rejected (flags : Nat) (engineOk : Bool) :
    SetCookie none flags engineOk = (Except.error DmErr.nilCookie, []) := rfl

/-- Engine responses consumed by one `GetStatus` call. -/
structure StatusResp where
  createOk   : Bool
  nameOk     : Bool
  runOk      : Bool
  info       : Option Info
  nextStart  : Nat
  nextLength : Nat
  nextType   : String
  nextParams : String
  deriving DecidableEq, Repr

/-- Result of `GetStatus`: the five-tuple return collapses to `ok` with the
first target's data, or the error that was returned (`nonExisting` being the
`fmt.Errorf("Non existing device %s", name)` case). -/
inductive GSResult where
  | ok (start length : Nat) (ttype params : String)
  | createTaskErr
  | setNameErr
  | runErr
  | getInfoErr
  | nonExisting
  deriving DecidableEq, Repr

/-- `GetStatus(name)` (source lines 456–479): create a `DeviceStatus` task
named `name`, run it, query its info; a nil info is the `GetInfo` error; an
info with `Exists == 0` returns the "Non existing device" error; otherwise
`GetNextTarget(0)` supplies the returned target data. -/
def GetStatus (name : String) (r : StatusResp) : GSResult × List Ev :=
  if r.createOk then
    if r.nameOk then
      if r.runOk then
        match r.info with
        | none =>
            (GSResult.getInfoErr,
             [Ev.dmTaskCreate TaskType.DeviceStatus, Ev.dmSetName name,
              Ev.dmRun, Ev.dmTaskGetInfo])
        | some devinfo =>
            if devinfo.Exists == 0 then
              (GSResult.nonExisting,
               [Ev.dmTaskCreate TaskType.DeviceStatus, Ev.dmSetName name,
                Ev.dmRun, Ev.dmTaskGetInfo])
            else
              (GSResult.ok r.nextStart r.nextLength r.nextType r.nextParams,
               [Ev.dmTaskCreate TaskType.DeviceStatus, Ev.dmSetName name,
                Ev.dmRun, Ev.dmTaskGetInfo, Ev.dmGetNextTarget])
      else
        (GSResult.runErr,
         [Ev.dmTaskCreate TaskType.DeviceStatus, Ev.dmSetName name, Ev.dmRun])
    else
      (GSResult.setNameErr,
       [Ev.dmTaskCreate TaskType.DeviceStatus, Ev.dmSetName name])
  else
    (GSResult.createTaskErr, [Ev.dmTaskCreate TaskType.DeviceStatus])

/-- **C7.**  When the info query succeeds but reports that the device does
not exist, `GetStatus` returns the "non-existing device" error and does not
call `GetNextTarget`. -/
theorem GetStatus_nonExisting (name : String) (r : StatusResp) (i : Info)
    (hc : r.createOk = true) (hn : r.nameOk = true) (hr : r.runOk = true)
    (hi : r.info = some i) (hEx : i.Exists = 0) :
    GetStatus name r
      = (GSResult.nonExisting,
         [Ev.dmTaskCreate TaskType.DeviceStatus, Ev.dmSetName name,
          Ev.dmRun, Ev.dmTaskGetInfo])
    ∧ Ev.dmGetNextTarget ∉ (GetStatus name r).2 := by
  have h1 : GetStatus name r
      = (GSResult.nonExisting,
         [Ev.dmTaskCreate TaskType.DeviceStatus, Ev.dmSetName name,
          Ev.dmRun, Ev.dmTaskGetInfo]) := by
    simp [GetStatus, hc, hn, hr, hi, hEx]
  refine ⟨h1, ?_⟩
  rw [h1]
  simp

/-- Concrete engine responses for `GetStatus`: setup and run succeed, the
info query reports a non-existing device. -/
def gsNonExistResp : StatusResp :=
  { createOk := true, nameOk := true, runOk := true, info := some infoN,
    nextStart := 0, nextLength := 0, nextType := "", nextParams := "" }

/-- Witness for C7: the concrete non-existing-device run. -/
theorem GetStatus_nonExisting_witness :
    GetStatus "dev" gsNonExistResp
      = (GSResult.nonExisting,
         [Ev.dmTaskCreate TaskType.DeviceStatus, Ev.dmSetName "dev",
          Ev.dmRun, Ev.dmTaskGetInfo])
    ∧ Ev.dmGetNextTarget ∉ (GetStatus "dev" gsNonExistResp).2 := by
  exact GetStatus_nonExisting "dev" gsNonExistResp infoN rfl rfl rfl rfl rfl

/-- Configuration / execution operations of the `Task` wrapper (source
lines 131–192).  The Go `Task` struct (source lines 75–78) holds only the
native handle (`unmanaged *CDmTask`) and no execution-state field. -/
inductive TaskOp where
  | setName (name : String)
  | setMessage (message : String)
  | setSector (sector : Nat)
  | setCookie (flags : Nat)
  | setAddNode (addNode : AddNodeType)
  | setRo
  | addTarget (start length : Nat) (ttype params : String)
  | run
  deriving DecidableEq, Repr

/-- One `Task` method call, as a function of that call's own engine response
only: the result and the native call made.  Mirrors source lines 131–192:
each method forwards to the native engine and fails with its dedicated error
iff the engine does not return 1 (`SetAddNode` additionally validates its
argument, but with the `AddNodeType` enum both values are valid; `SetCookie`
here is called with the non-nil cookie the wrapper's callers pass).  No
method consults any record of earlier calls — the struct has no such
field. -/
def applyOp : TaskOp → Bool → Except DmErr Unit × List Ev
  | TaskOp.setName n, engineOk =>
      ((if engineOk then Except.ok () else Except.error DmErr.taskSetName),
       [Ev.dmSetName n])
  | TaskOp.setMessage m, engineOk =>
      ((if engineOk then Except.ok () else Except.error DmErr.taskSetMessage),
       [Ev.dmSetMessage m])
  | TaskOp.setSector s, engineOk =>
      ((if engineOk then Except.ok () else Except.error DmErr.taskSetSector),
       [Ev.dmSetSector s])
  | TaskOp.setCookie _, engineOk =>
      ((if engineOk then Except.ok () else Except.error DmErr.taskSetCookie),
       [Ev.dmSetCookie])
  | TaskOp.setAddNode a, engineOk =>
      ((if engineOk then Except.ok () else Except.error DmErr.taskSetAddNode),
       [Ev.dmSetAddNode a])
  | TaskOp.setRo, engineOk =>
      ((if engineOk then Except.ok () else Except.error DmErr.taskSetRo),
       [Ev.dmSetRo])
  | TaskOp.addTarget st len ty pa, engineOk =>
      ((if engineOk then Except.ok () else Except.error DmErr.taskAddTarget),
       [Ev.dmAddTarget st len ty pa])
  | TaskOp.run, engineOk =>
      ((if engineOk then Except.ok () else Except.error DmErr.taskRun),
       [Ev.dmRun])

/-- A sequence of method calls on one `Task`, each paired with the engine's
response to it; returns the per-call results and the native-call trace. -/
def runTaskOps : List (TaskOp × Bool) → List (Except DmErr Unit) × List Ev
  | [] => ([], [])
  | (op, engineOk) :: rest =>
      let r := applyOp op engineOk
      let rs := runTaskOps rest
      (r.1 :: rs.1, r.2 ++ rs.2)

/-- Counterexample to C5 as stated: a `Task` is run twice and then
configured after the runs — the wrapper rejects nothing: both runs execute
(two `dmRun` native calls) and the post-run `SetName` is forwarded to the
engine and succeeds, rather than being rejected with an error. -/
theorem Task_postRun_config_cex :
    runTaskOps [(TaskOp.run, true), (TaskOp.run, true),
        (TaskOp.setName "x", true)]
      = ([Except.ok (), Except.ok (), Except.ok ()],
         [Ev.dmRun, Ev.dmRun, Ev.dmSetName "x"]) := rfl

/-- **C5 (amended).**  The `Task` wrapper enforces neither at-most-once
execution nor post-run rejection: in any call sequence, each call's result
is exactly `applyOp` of that call's own engine response — independent of any
earlier `Run` on the same task — and every call's native invocation reaches
the engine. -/
theorem Task_history_free (ops : List (TaskOp × Bool)) :
    (runTaskOps ops).1 = ops.map (fun p => (applyOp p.1 p.2).1)
    ∧ (runTaskOps ops).2 = (ops.map (fun p => (applyOp p.1 p.2).2)).flatten := by
  induction ops with
  | nil => exact ⟨rfl, rfl⟩
  | cons p rest ih =>
    refine ⟨?_, ?_⟩
    · simp [runTaskOps, ih.1]
    · simp [runTaskOps, ih.2]

end Devicemapper
